import Mathlib

/-!
Verification of the Order use-case library of bch-dex
(`src/use-cases/order/index.js`).

The JavaScript class `OrderUseCases` is shallowly embedded as pure Lean
functions.  The mutable collaborator bundle (`this.adapters`) becomes an
explicit `Env` record of the interfaces the slice consumes; the persisted
order collection becomes an explicit `OrderStore` value threaded through
each operation; every network / storage interaction is additionally logged
in a `CallEvent` trace so that frame and "no further calls" properties can
be stated.  Fallible operations return `Except OrderError _`, one error
constructor per `throw` site of the source.
-/

namespace BchDex

/-- JavaScript `pat.isPrefix-like` helper: does the pattern list occur at the
head of the second list?  Used to embed `String.prototype.includes`. -/
def subAt : List Char → List Char → Bool
  | [], _ => true
  | _ :: _, [] => false
  | a :: as, b :: bs => (a == b) && subAt as bs

/-- Does the pattern occur anywhere inside the list? -/
def hasSub (pat : List Char) : List Char → Bool
  | [] => subAt pat []
  | c :: rest => subAt pat (c :: rest) || hasSub pat rest

/-- Embedding of JavaScript `s.includes(pat)`: substring containment. -/
def strIncludes (s pat : String) : Bool :=
  hasSub pat.toList s.toList

/-- One constructor per `throw new Error(...)` site of
`src/use-cases/order/index.js` (plus the validation failure of the entity
validator).  `OrderError.message` records the exact JS message string. -/
inductive OrderError where
  | alreadyTaken
  | utxoGone
  | p2wdbFunds
  | notEnoughBCH
  | buyNotSupported
  | badHash
  | notFound
  | invalidOrder
  deriving DecidableEq, Repr

/-- The exact message string thrown at each site of the source. -/
def OrderError.message : OrderError → String
  | .alreadyTaken => "order already taken"
  | .utxoGone => "UTXO does not exist. Aborting."
  | .p2wdbFunds => "App wallet does not have funds for writing to the P2WDB."
  | .notEnoughBCH => "App wallet does not control enough BCH to purchase the tokens."
  | .buyNotSupported => "Buy orders are not supported yet."
  | .badHash => "p2wdbHash must be a string"
  | .notFound => "order not found"
  | .invalidOrder => "order failed validation"

/-- A persisted Order record (the plain object produced by
`order.toObject()`, minus store-internal metadata).  `orderStatus` is
`Option String`: JavaScript objects may simply lack the field. -/
structure OrderRecord where
  p2wdbHash : String
  utxoTxid : String
  utxoVout : Nat
  buyOrSell : String
  numTokens : Nat
  rateInSats : Nat
  orderStatus : Option String
  deriving DecidableEq, Repr

/-- The `data` payload of an inbound webhook order object
(`orderObj.data` in the source, shape per the P2WDB webhook). -/
structure OrderPayload where
  p2wdbHash : String
  utxoTxid : String
  utxoVout : Nat
  buyOrSell : String
  numTokens : Nat
  rateInSats : Nat
  orderStatus : Option String
  deriving DecidableEq, Repr

/-- The inbound webhook order object: fields live under a `data` key. -/
structure OrderObj where
  data : OrderPayload
  deriving DecidableEq, Repr

/-- The persisted order collection (`this.OrderModel`), in insertion
order; `findOne` returns the first match. -/
abbrev OrderStore := List OrderRecord

/-- Events logged for each collaborator interaction, used to state frame
("never writes") and "no further calls" properties.  `broadcastTx` is in
the vocabulary of wallet capabilities but is never emitted by this slice. -/
inductive CallEvent where
  | storeFindOne (hash : String)
  | storeSave
  | getTxOut (txid : String) (vout : Nat)
  | checkP2WDBFunds
  | getBalance
  | readUtxoStore
  | generatePartialTx
  | broadcastTx
  deriving DecidableEq, Repr

/-- The collaborator bundle (`this.adapters`): blockchain UTXO oracle,
P2WDB funds check, wallet balance and partial-transaction construction. -/
structure Env where
  getTxOut : String → Nat → Option Unit
  canWriteToP2WDB : Bool
  balance : Nat
  generatePartialTx : OrderRecord → String

/-- The fee-safety margin `SATS_MARGIN` of `ensureFunds`. -/
def SATS_MARGIN : Nat := 5000

/-- Modelled from the spec: the Order Entity Validator
(`src/entities/order`), which the use case requires but which is absent
from the source slice.  Per the spec it enforces presence and type of the
Order fields, rejects unknown `buyOrSell` values (only `sell` and the
recognized-but-unsupported `buy` pass), and requires the positive numeric
fields and the non-empty content hash; it is pure and deterministic. -/
def validateOrder (obj : OrderObj) : Except OrderError OrderRecord :=
  let d := obj.data
  if d.p2wdbHash = "" then .error .invalidOrder
  else if !(d.buyOrSell == "buy" || d.buyOrSell == "sell") then .error .invalidOrder
  else if d.numTokens = 0 then .error .invalidOrder
  else if d.rateInSats = 0 then .error .invalidOrder
  else
    match d.orderStatus with
    | none => .error .invalidOrder
    | some st =>
        .ok { p2wdbHash := d.p2wdbHash, utxoTxid := d.utxoTxid,
              utxoVout := d.utxoVout, buyOrSell := d.buyOrSell,
              numTokens := d.numTokens, rateInSats := d.rateInSats,
              orderStatus := some st }

/-- Embedding of `createOrder(orderObj)`.  Returns the JS return value (or
error), the order object after the method's in-place mutation of
`orderObj.data.orderStatus`, the resulting store, and the call trace.
Source steps: query `getTxOut`; on `null` return `false`; otherwise set
`orderStatus = 'posted'`, validate, save, return `true`. -/
def createOrder (env : Env) (store : OrderStore) (orderObj : OrderObj) :
    Except OrderError Bool × OrderObj × OrderStore × List CallEvent :=
  let txid := orderObj.data.utxoTxid
  let vout := orderObj.data.utxoVout
  let tr := [CallEvent.getTxOut txid vout]
  match env.getTxOut txid vout with
  | none => (.ok false, orderObj, store, tr)
  | some _ =>
      let orderObj1 : OrderObj :=
        { orderObj with data := { orderObj.data with orderStatus := some "posted" } }
      match validateOrder orderObj1 with
      | .error e => (.error e, orderObj1, store, tr)
      | .ok ent => (.ok true, orderObj1, store ++ [ent], tr ++ [CallEvent.storeSave])

/-- Embedding of `listOrders()`: returns all persisted orders verbatim. -/
def listOrders (store : OrderStore) : List OrderRecord :=
  store

/-- Embedding of `findOrderByHash(p2wdbHash)`.  The JS guard
`typeof p2wdbHash !== 'string' || !p2wdbHash` reduces, for string inputs,
to rejecting the empty string before any store access; then `findOne`
returns the first record whose hash matches, else `order not found`. -/
def findOrderByHash (store : OrderStore) (p2wdbHash : String) :
    Except OrderError OrderRecord × List CallEvent :=
  if p2wdbHash = "" then (.error .badHash, [])
  else
    match store.find? (fun r => r.p2wdbHash == p2wdbHash) with
    | some r => (.ok r, [CallEvent.storeFindOne p2wdbHash])
    | none => (.error .notFound, [CallEvent.storeFindOne p2wdbHash])

/-- Embedding of `ensureFunds(orderEntity)`.  Source steps: P2WDB funds
check; if `buyOrSell.includes('sell')`, compare
`numTokens * parseInt(rateInSats) + SATS_MARGIN` against the live balance
(`parseInt` is the identity on the numeric embedding); otherwise the buy
branch throws unconditionally. -/
def ensureFunds (env : Env) (o : OrderRecord) :
    Except OrderError Bool × List CallEvent :=
  if !env.canWriteToP2WDB then
    (.error .p2wdbFunds, [CallEvent.checkP2WDBFunds])
  else if strIncludes o.buyOrSell "sell" then
    let satsNeeded := o.numTokens * o.rateInSats
    if satsNeeded + SATS_MARGIN > env.balance then
      (.error .notEnoughBCH, [CallEvent.checkP2WDBFunds, CallEvent.getBalance])
    else
      (.ok true, [CallEvent.checkP2WDBFunds, CallEvent.getBalance])
  else
    (.error .buyNotSupported, [CallEvent.checkP2WDBFunds])

/-- The status guard of `takeOrder`:
`orderInfo.orderStatus && orderInfo.orderStatus !== 'posted'`.
JS truthiness makes a present-but-empty status string falsy, so the guard
fires only on a present, non-empty status different from `'posted'`. -/
def statusGuard : Option String → Bool
  | some st => (st != "") && (st != "posted")
  | none => false

/-- Embedding of `takeOrder(orderCid)`.  Source steps: look the order up
by hash; status guard; re-check UTXO liveness; `ensureFunds`; read the
wallet UTXO store; delegate to `generatePartialTx` and return the hex.
The store is returned unchanged on every path: the method never writes. -/
def takeOrder (env : Env) (store : OrderStore) (orderCid : String) :
    Except OrderError String × OrderStore × List CallEvent :=
  match findOrderByHash store orderCid with
  | (.error e, tr) => (.error e, store, tr)
  | (.ok orderInfo, tr) =>
      if statusGuard orderInfo.orderStatus then
        (.error .alreadyTaken, store, tr)
      else
        let tr1 := tr ++ [CallEvent.getTxOut orderInfo.utxoTxid orderInfo.utxoVout]
        match env.getTxOut orderInfo.utxoTxid orderInfo.utxoVout with
        | none => (.error .utxoGone, store, tr1)
        | some _ =>
            match ensureFunds env orderInfo with
            | (.error e, ftr) => (.error e, store, tr1 ++ ftr)
            | (.ok _, ftr) =>
                (.ok (env.generatePartialTx orderInfo), store,
                 tr1 ++ ftr ++ [CallEvent.readUtxoStore, CallEvent.generatePartialTx])

/-! ### Concrete fixtures used by witnesses and counterexamples -/

/-- A live-oracle environment: every UTXO reported unspent. -/
def envLive : Env :=
  { getTxOut := fun _ _ => some (), canWriteToP2WDB := true, balance := 10000,
    generatePartialTx := fun _ => "0200aa" }

/-- A dead-oracle environment: every UTXO reported spent/unknown. -/
def envDead : Env :=
  { getTxOut := fun _ _ => none, canWriteToP2WDB := true, balance := 10000,
    generatePartialTx := fun _ => "0200aa" }

/-- The sample sell payload of the spec scenario (§8). -/
def sampleData : OrderPayload :=
  { p2wdbHash := "hash1", utxoTxid := "abc", utxoVout := 0, buyOrSell := "sell",
    numTokens := 10, rateInSats := 100, orderStatus := none }

/-- The sample webhook object wrapping `sampleData`. -/
def sampleObj : OrderObj := { data := sampleData }

/-- The persisted record corresponding to `sampleData` after posting. -/
def sampleRecord : OrderRecord :=
  { p2wdbHash := "hash1", utxoTxid := "abc", utxoVout := 0, buyOrSell := "sell",
    numTokens := 10, rateInSats := 100, orderStatus := some "posted" }

/-- A persisted record already in state `taken`. -/
def takenRecord : OrderRecord := { sampleRecord with p2wdbHash := "hash2", orderStatus := some "taken" }

/-- A persisted record whose `orderStatus` is present but the empty string. -/
def emptyStatusRecord : OrderRecord := { sampleRecord with p2wdbHash := "hash3", orderStatus := some "" }

/-- A record with the unsupported `buy` side. -/
def buyRecord : OrderRecord := { sampleRecord with buyOrSell := "buy" }

/-- A record whose side string merely contains `sell` as a substring. -/
def buysellRecord : OrderRecord := { sampleRecord with buyOrSell := "buysell" }

/-- A record whose side string contains neither `sell` nor `buy`. -/
def oddSideRecord : OrderRecord := { sampleRecord with buyOrSell := "xyz" }

/-- A webhook object that fails entity validation (`numTokens = 0`). -/
def badObj : OrderObj := { data := { sampleData with numTokens := 0 } }

/-! ### Helper lemmas -/

/-- `findOrderByHash` only ever logs the one `findOne` store read. -/
theorem mem_findOrderByHash_trace {store : OrderStore} {h : String} {e : CallEvent}
    (he : e ∈ (findOrderByHash store h).2) : e = CallEvent.storeFindOne h := by
  unfold findOrderByHash at he
  split at he
  · simp at he
  · split at he <;> simpa using he

/-- `ensureFunds` only ever logs the P2WDB funds check and the balance read. -/
theorem mem_ensureFunds_trace {env : Env} {o : OrderRecord} {e : CallEvent}
    (he : e ∈ (ensureFunds env o).2) :
    e = CallEvent.checkP2WDBFunds ∨ e = CallEvent.getBalance := by
  simp only [ensureFunds] at he
  split at he
  · simp at he; exact Or.inl he
  · split at he
    · split at he <;> simpa using he
    · simp at he; exact Or.inl he

/-- A successful lookup determines the whole `findOrderByHash` result pair. -/
theorem findOrderByHash_ok {store : OrderStore} {h : String} {r : OrderRecord}
    (hok : (findOrderByHash store h).1 = .ok r) :
    findOrderByHash store h = (.ok r, [CallEvent.storeFindOne h]) := by
  unfold findOrderByHash at hok ⊢
  split at hok
  · simp at hok
  · rename_i hne
    split at hok
    · simp at hok
      subst hok
      simp [hne]
    · simp at hok

/-- A successful validation determines the produced entity: all fields are
copied from the payload, whose hash is necessarily non-empty. -/
theorem validateOrder_ok {obj : OrderObj} {ent : OrderRecord}
    (h : validateOrder obj = .ok ent) :
    ent.p2wdbHash = obj.data.p2wdbHash ∧ obj.data.p2wdbHash ≠ "" := by
  by_cases hh : obj.data.p2wdbHash = ""
  · simp [validateOrder, hh] at h
  · refine ⟨?_, hh⟩
    simp only [validateOrder] at h
    rw [if_neg hh] at h
    split at h
    · simp at h
    · split at h
      · simp at h
      · split at h
        · simp at h
        · split at h
          · simp at h
          · simp only [Except.ok.injEq] at h
            subst h
            rfl

/-! ### Claim theorems -/

/-- C2: for a sell order, assuming the P2WDB funds check passes,
`ensureFunds` reads the wallet balance and fails with the
insufficient-funds error exactly when
`numTokens * rateInSats + 5000 > balance`; otherwise it returns `true`. -/
theorem ensureFunds_sell_solvency (env : Env) (o : OrderRecord)
    (hw : env.canWriteToP2WDB = true)
    (hs : strIncludes o.buyOrSell "sell" = true) :
    CallEvent.getBalance ∈ (ensureFunds env o).2 ∧
    ((ensureFunds env o).1 = .error .notEnoughBCH ↔
      o.numTokens * o.rateInSats + 5000 > env.balance) ∧
    (o.numTokens * o.rateInSats + 5000 ≤ env.balance →
      (ensureFunds env o).1 = .ok true) := by
  by_cases hbal : o.numTokens * o.rateInSats + 5000 > env.balance <;>
    simp [ensureFunds, hw, hs, SATS_MARGIN, hbal]

/-- Witness for C2: the spec scenario — 10 tokens at 100 sats each against
a 10000-sat balance. -/
theorem ensureFunds_sell_solvency_witness :
    CallEvent.getBalance ∈ (ensureFunds envLive sampleRecord).2 ∧
    ((ensureFunds envLive sampleRecord).1 = .error .notEnoughBCH ↔
      sampleRecord.numTokens * sampleRecord.rateInSats + 5000 > envLive.balance) ∧
    (sampleRecord.numTokens * sampleRecord.rateInSats + 5000 ≤ envLive.balance →
      (ensureFunds envLive sampleRecord).1 = .ok true) :=
  ensureFunds_sell_solvency envLive sampleRecord rfl (by decide)

/-- C6: a buy-side order (containing `buy` and not `sell`) always fails
`ensureFunds` with the buy-not-supported error, for every wallet balance
(the environment, hence the balance, is arbitrary); the balance is never
even read. -/
theorem ensureFunds_buy_unsupported (env : Env) (o : OrderRecord)
    (hw : env.canWriteToP2WDB = true)
    (hb : strIncludes o.buyOrSell "buy" = true)
    (hs : strIncludes o.buyOrSell "sell" = false) :
    ensureFunds env o = (.error .buyNotSupported, [CallEvent.checkP2WDBFunds]) := by
  simp [ensureFunds, hw, hs]

/-- Witness for C6 at the concrete `buy` record. -/
theorem ensureFunds_buy_unsupported_witness :
    ensureFunds envLive buyRecord = (.error .buyNotSupported, [CallEvent.checkP2WDBFunds]) :=
  ensureFunds_buy_unsupported envLive buyRecord rfl (by decide) (by decide)

/-- C9: `ensureFunds` dispatches on substring containment, not equality:
any `buyOrSell` containing `sell` anywhere takes the sell-side solvency
path, and any `buyOrSell` not containing `sell` — whatever its value —
fails with the buy-not-supported error (P2WDB funds check passing). -/
theorem ensureFunds_dispatch_on_substring (env : Env) (o : OrderRecord)
    (hw : env.canWriteToP2WDB = true) :
    (strIncludes o.buyOrSell "sell" = true →
      ensureFunds env o =
        (if o.numTokens * o.rateInSats + 5000 > env.balance then
           Except.error OrderError.notEnoughBCH
         else Except.ok true,
         [CallEvent.checkP2WDBFunds, CallEvent.getBalance])) ∧
    (strIncludes o.buyOrSell "sell" = false →
      ensureFunds env o = (.error .buyNotSupported, [CallEvent.checkP2WDBFunds])) := by
  constructor
  · intro hs
    by_cases hbal : o.numTokens * o.rateInSats + 5000 > env.balance <;>
      simp [ensureFunds, hw, hs, SATS_MARGIN, hbal]
  · intro hs
    simp [ensureFunds, hw, hs]

/-- Witness for C9: `"buysell"` (contains `sell` without equalling it)
takes the sell path; `"xyz"` (contains neither side keyword) falls into
the buy-not-supported rejection. -/
theorem ensureFunds_dispatch_on_substring_witness :
    ensureFunds envLive buysellRecord =
      (if buysellRecord.numTokens * buysellRecord.rateInSats + 5000 > envLive.balance then
         Except.error OrderError.notEnoughBCH
       else Except.ok true,
       [CallEvent.checkP2WDBFunds, CallEvent.getBalance]) ∧
    ensureFunds envLive oddSideRecord = (.error .buyNotSupported, [CallEvent.checkP2WDBFunds]) :=
  ⟨(ensureFunds_dispatch_on_substring envLive buysellRecord rfl).1 (by decide),
   (ensureFunds_dispatch_on_substring envLive oddSideRecord rfl).2 (by decide)⟩

/-- C3: when the oracle reports the backing UTXO spent/unknown (`getTxOut`
returns `none`), `createOrder` leaves the store untouched, performs no
save, leaves the input unmodified, and returns `false` rather than an
error. -/
theorem createOrder_spentUtxo_noop (env : Env) (store : OrderStore) (obj : OrderObj)
    (h : env.getTxOut obj.data.utxoTxid obj.data.utxoVout = none) :
    createOrder env store obj =
      (.ok false, obj, store, [CallEvent.getTxOut obj.data.utxoTxid obj.data.utxoVout]) := by
  simp [createOrder, h]

/-- Witness for C3 at the dead-oracle environment. -/
theorem createOrder_spentUtxo_noop_witness :
    createOrder envDead [] sampleObj = (.ok false, sampleObj, [], [CallEvent.getTxOut "abc" 0]) :=
  createOrder_spentUtxo_noop envDead [] sampleObj rfl

/-- C10: `createOrder` mutates its argument in place: when the liveness
check passes, the caller-visible payload has `orderStatus` set to
`'posted'` (all other fields untouched) regardless of whether the
subsequent validation and persistence succeed; when the liveness check
fails, the input comes back unmodified. -/
theorem createOrder_mutates_input (env : Env) (store : OrderStore) (obj : OrderObj) :
    (env.getTxOut obj.data.utxoTxid obj.data.utxoVout = none →
      (createOrder env store obj).2.1 = obj) ∧
    (∀ u, env.getTxOut obj.data.utxoTxid obj.data.utxoVout = some u →
      (createOrder env store obj).2.1 =
        { obj with data := { obj.data with orderStatus := some "posted" } }) := by
  constructor
  · intro h
    simp [createOrder, h]
  · intro u h
    rcases hv : validateOrder { obj with data := { obj.data with orderStatus := some "posted" } } with e | ent <;>
      simp [createOrder, h, hv]

/-- Witness for C10: the dead oracle leaves the input alone; the live
oracle marks even a validation-failing payload (`numTokens = 0`) as
`posted`, so the mutation is visible although `createOrder` errors. -/
theorem createOrder_mutates_input_witness :
    (createOrder envDead [] sampleObj).2.1 = sampleObj ∧
    (createOrder envLive [] badObj).2.1 =
      { badObj with data := { badObj.data with orderStatus := some "posted" } } :=
  ⟨(createOrder_mutates_input envDead [] sampleObj).1 rfl,
   (createOrder_mutates_input envLive [] badObj).2 () rfl⟩

/-- C4: for a valid order payload (per the spec-modelled entity validator)
whose backing UTXO the oracle reports live, `createOrder` appends exactly
one record, that record carries `orderStatus = 'posted'` and the payload's
hash, and the call returns `true`. -/
theorem createOrder_live_persists_posted (env : Env) (store : OrderStore) (obj : OrderObj)
    (hu : env.getTxOut obj.data.utxoTxid obj.data.utxoVout = some ())
    (hh : obj.data.p2wdbHash ≠ "")
    (hb : obj.data.buyOrSell = "buy" ∨ obj.data.buyOrSell = "sell")
    (hn : obj.data.numTokens ≠ 0)
    (hr : obj.data.rateInSats ≠ 0) :
    (createOrder env store obj).1 = .ok true ∧
    ∃ ent, (createOrder env store obj).2.2.1 = store ++ [ent] ∧
      ent.orderStatus = some "posted" ∧ ent.p2wdbHash = obj.data.p2wdbHash := by
  have hv : validateOrder { obj with data := { obj.data with orderStatus := some "posted" } } =
      .ok { p2wdbHash := obj.data.p2wdbHash, utxoTxid := obj.data.utxoTxid,
            utxoVout := obj.data.utxoVout, buyOrSell := obj.data.buyOrSell,
            numTokens := obj.data.numTokens, rateInSats := obj.data.rateInSats,
            orderStatus := some "posted" } := by
    rcases hb with hb | hb <;> simp [validateOrder, hh, hb, hn, hr]
  have hc : createOrder env store obj =
      (.ok true, { obj with data := { obj.data with orderStatus := some "posted" } },
       store ++ [{ p2wdbHash := obj.data.p2wdbHash, utxoTxid := obj.data.utxoTxid,
                   utxoVout := obj.data.utxoVout, buyOrSell := obj.data.buyOrSell,
                   numTokens := obj.data.numTokens, rateInSats := obj.data.rateInSats,
                   orderStatus := some "posted" }],
       [CallEvent.getTxOut obj.data.utxoTxid obj.data.utxoVout, CallEvent.storeSave]) := by
    simp [createOrder, hu, hv]
  rw [hc]
  exact ⟨rfl, ⟨_, rfl, rfl, rfl⟩⟩

/-- Witness for C4: the spec scenario payload against the live oracle. -/
theorem createOrder_live_persists_posted_witness :
    (createOrder envLive [] sampleObj).1 = .ok true ∧
    ∃ ent, (createOrder envLive [] sampleObj).2.2.1 = [] ++ [ent] ∧
      ent.orderStatus = some "posted" ∧ ent.p2wdbHash = sampleObj.data.p2wdbHash :=
  createOrder_live_persists_posted envLive [] sampleObj rfl (by decide) (Or.inr rfl)
    (by decide) (by decide)

/-- C8 round-trip: an order successfully persisted by `createOrder` (into
a store holding no record under the same content hash) is returned whole
by `findOrderByHash` on its assigned hash — the found record literally
equals the saved one, so all fields agree. -/
theorem createOrder_findOrderByHash_roundtrip (env : Env) (store : OrderStore) (obj : OrderObj)
    (hsucc : (createOrder env store obj).1 = .ok true)
    (hfresh : ∀ r ∈ store, r.p2wdbHash ≠ obj.data.p2wdbHash) :
    ∃ ent, (createOrder env store obj).2.2.1 = store ++ [ent] ∧
      (findOrderByHash (createOrder env store obj).2.2.1 ent.p2wdbHash).1 = .ok ent := by
  rcases hg : env.getTxOut obj.data.utxoTxid obj.data.utxoVout with _ | u
  · simp [createOrder, hg] at hsucc
  · rcases hv : validateOrder { obj with data := { obj.data with orderStatus := some "posted" } }
      with e | ent
    · simp [createOrder, hg, hv] at hsucc
    · have hstore : (createOrder env store obj).2.2.1 = store ++ [ent] := by
        simp [createOrder, hg, hv]
      obtain ⟨hhash, hne⟩ := validateOrder_ok hv
      refine ⟨ent, hstore, ?_⟩
      rw [hstore]
      unfold findOrderByHash
      rw [if_neg (by rw [hhash]; exact hne)]
      have h1 : store.find? (fun r => r.p2wdbHash == ent.p2wdbHash) = none := by
        rw [List.find?_eq_none]
        intro x hx
        simp only [beq_iff_eq, hhash]
        exact hfresh x hx
      have h2 : (store ++ [ent]).find? (fun r => r.p2wdbHash == ent.p2wdbHash) = some ent := by
        rw [List.find?_append, h1, Option.none_or]
        exact List.find?_cons_of_pos _ (by simp)
      rw [h2]

/-- Witness for C8: round-trip of the spec scenario order through an
empty store. -/
theorem createOrder_findOrderByHash_roundtrip_witness :
    ∃ ent, (createOrder envLive [] sampleObj).2.2.1 = [] ++ [ent] ∧
      (findOrderByHash (createOrder envLive [] sampleObj).2.2.1 ent.p2wdbHash).1 = .ok ent :=
  createOrder_findOrderByHash_roundtrip envLive [] sampleObj rfl (by simp)

/-- C5: `takeOrder` never writes to the Order Store: on every path the
store comes back unchanged, no save event is logged, and no broadcast
event is logged — no `taken` transition is committed and no transaction
is broadcast. -/
theorem takeOrder_never_writes (env : Env) (store : OrderStore) (orderCid : String) :
    (takeOrder env store orderCid).2.1 = store ∧
    CallEvent.storeSave ∉ (takeOrder env store orderCid).2.2 ∧
    CallEvent.broadcastTx ∉ (takeOrder env store orderCid).2.2 := by
  have hfind : ∀ p, findOrderByHash store orderCid = p →
      ∀ x ∈ p.2, x ≠ CallEvent.storeSave ∧ x ≠ CallEvent.broadcastTx := by
    intro p hp x hx
    have hx2 : x ∈ (findOrderByHash store orderCid).2 := by rw [hp]; exact hx
    rw [mem_findOrderByHash_trace hx2]
    exact ⟨by simp, by simp⟩
  have hfunds : ∀ o p, ensureFunds env o = p →
      ∀ x ∈ p.2, x ≠ CallEvent.storeSave ∧ x ≠ CallEvent.broadcastTx := by
    intro o p hp x hx
    have hx2 : x ∈ (ensureFunds env o).2 := by rw [hp]; exact hx
    rcases mem_ensureFunds_trace hx2 with h | h <;> rw [h] <;> exact ⟨by simp, by simp⟩
  have hstore : (takeOrder env store orderCid).2.1 = store := by
    simp only [takeOrder]
    split
    · rfl
    · split
      · rfl
      · split
        · rfl
        · split <;> rfl
  have key : ∀ e ∈ (takeOrder env store orderCid).2.2,
      e ≠ CallEvent.storeSave ∧ e ≠ CallEvent.broadcastTx := by
    intro e he
    simp only [takeOrder] at he
    split at he
    · rename_i err tr heq
      exact hfind _ heq e he
    · rename_i orderInfo tr heq
      split at he
      · exact hfind _ heq e he
      · split at he
        · rcases List.mem_append.mp he with h | h
          · exact hfind _ heq e h
          · rw [List.mem_singleton.mp h]
            exact ⟨by simp, by simp⟩
        · rename_i u heq2
          split at he
          · rename_i err2 ftr heq3
            rcases List.mem_append.mp he with h | h
            · rcases List.mem_append.mp h with h2 | h2
              · exact hfind _ heq e h2
              · rw [List.mem_singleton.mp h2]
                exact ⟨by simp, by simp⟩
            · exact hfunds orderInfo _ heq3 e h
          · rename_i val ftr heq3
            rcases List.mem_append.mp he with h | h
            · rcases List.mem_append.mp h with h2 | h2
              · rcases List.mem_append.mp h2 with h3 | h3
                · exact hfind _ heq e h3
                · rw [List.mem_singleton.mp h3]
                  exact ⟨by simp, by simp⟩
              · exact hfunds orderInfo _ heq3 e h2
            · simp only [List.mem_cons, List.not_mem_nil, or_false] at h
              rcases h with h | h <;> rw [h] <;> exact ⟨by simp, by simp⟩
  exact ⟨hstore, fun hc => ((key _ hc).1 rfl), fun hc => ((key _ hc).2 rfl)⟩

/-- C1 (amended): when the looked-up order's `orderStatus` is present,
non-empty and different from `'posted'`, `takeOrder` fails with the
order-already-taken error and its whole trace is the single initial store
lookup — no wallet or UTXO-oracle call is made.  (The non-emptiness
condition is forced by the JS truthiness guard, see the
counterexample.) -/
theorem takeOrder_alreadyTaken (env : Env) (store : OrderStore) (orderCid : String)
    (r : OrderRecord) (st : String)
    (hfind : (findOrderByHash store orderCid).1 = .ok r)
    (hst : r.orderStatus = some st) (h1 : st ≠ "") (h2 : st ≠ "posted") :
    takeOrder env store orderCid =
      (.error .alreadyTaken, store, [CallEvent.storeFindOne orderCid]) := by
  have hpair := findOrderByHash_ok hfind
  have hsg : statusGuard r.orderStatus = true := by
    rw [hst]
    simp [statusGuard, bne_iff_ne, h1, h2]
  simp only [takeOrder, hpair]
  simp [hsg]

/-- Witness for C1 (amended): a persisted order in state `taken` is
rejected with the single lookup as its whole trace. -/
theorem takeOrder_alreadyTaken_witness :
    takeOrder envLive [takenRecord] "hash2" =
      (.error .alreadyTaken, [takenRecord], [CallEvent.storeFindOne "hash2"]) :=
  takeOrder_alreadyTaken envLive [takenRecord] "hash2" takenRecord "taken" rfl rfl
    (by decide) (by decide)

/-- Counterexample to C1 as stated: a persisted order whose `orderStatus`
is present (`some ""`) and not equal to `'posted'`, yet `takeOrder` does
not fail with the order-already-taken error — the JS truthiness guard lets
the empty string through, the UTXO oracle is consulted (an oracle call
beyond the status check), and the call fails with the stale-UTXO error
instead. -/
theorem takeOrder_emptyStatus_counterexample :
    emptyStatusRecord.orderStatus = some "" ∧ ("" : String) ≠ "posted" ∧
    takeOrder envDead [emptyStatusRecord] "hash3" =
      (.error .utxoGone, [emptyStatusRecord],
       [CallEvent.storeFindOne "hash3", CallEvent.getTxOut "abc" 0]) ∧
    OrderError.utxoGone ≠ OrderError.alreadyTaken := by
  exact ⟨rfl, by decide, rfl, by decide⟩

/-- C7: for a `posted` order whose backing UTXO the oracle now reports
spent/unknown, `takeOrder` fails with the stale-order error — whose
message contains `'UTXO does not exist'` — and the trace stops at the
lookup and the oracle query: no solvency check and no partial-transaction
construction happen. -/
theorem takeOrder_staleUtxo (env : Env) (store : OrderStore) (orderCid : String)
    (r : OrderRecord)
    (hfind : (findOrderByHash store orderCid).1 = .ok r)
    (hposted : r.orderStatus = some "posted")
    (hutxo : env.getTxOut r.utxoTxid r.utxoVout = none) :
    takeOrder env store orderCid =
      (.error .utxoGone, store,
       [CallEvent.storeFindOne orderCid, CallEvent.getTxOut r.utxoTxid r.utxoVout]) ∧
    strIncludes (OrderError.message .utxoGone) "UTXO does not exist" = true := by
  refine ⟨?_, by decide⟩
  have hpair := findOrderByHash_ok hfind
  have hsg : statusGuard r.orderStatus = false := by
    rw [hposted]; decide
  simp only [takeOrder, hpair]
  simp [hsg, hutxo]

/-- Witness for C7: the posted scenario order against the dead oracle. -/
theorem takeOrder_staleUtxo_witness :
    takeOrder envDead [sampleRecord] "hash1" =
      (.error .utxoGone, [sampleRecord],
       [CallEvent.storeFindOne "hash1",
        CallEvent.getTxOut sampleRecord.utxoTxid sampleRecord.utxoVout]) ∧
    strIncludes (OrderError.message .utxoGone) "UTXO does not exist" = true :=
  takeOrder_staleUtxo envDead [sampleRecord] "hash1" sampleRecord rfl rfl rfl

end BchDex
